import Mathlib

/-!
# Verification of the py_qcode check-evaluation core (`py_qcode/code.py`)

This file gives a shallow embedding of the syndrome-extraction core of
py_qcode: the `ErrorCheck` / `StabilizerCheck` classes, their `evaluate`
methods, the `ErrorCorrectingCode.measure` pass, and the noisy-syndrome
helpers `letter_flip`, `z_flip`, `x_flip`, together with the fragment of
the external `qecc` Pauli algebra that the core calls
(`Pauli`, `commutes_with`, `tens`).

Modelling conventions:
* Python exceptions are modelled with `Except PyErr`; an exception raised
  while looping over dual points aborts the loop, leaving the mutations of
  the earlier iterations in place, exactly as in CPython.
* Mutable `Point` objects are modelled by a heap: points are identified by
  natural numbers (`PointId`), and a `State` maps each point id to its
  `error` and `syndrome` attributes.  Checks store point ids, mirroring the
  aliasing of `Point` objects between `primal_sets` and `dual_points` of
  several checks.
* `numpy.random.rand()` is modelled by an explicit stream `rng : ℕ → ℚ` of
  uniform draws together with a cursor `k` giving the index of the next
  fresh draw; each call of `noise_func` consumes one draw.
* Python values that can be either a string or a `qecc.Pauli` (or anything
  else) are modelled by the sum type `ErrRep`; syndrome values, which can
  be strings (CSS mode) or ints (plain commutation mode), by `Syn`.
-/

namespace PyQcode

/-- Python exceptions raised by the modelled code, with their messages. -/
inductive PyErr where
  | keyError (msg : String)
  | typeError (msg : String)
  | valueError (msg : String)
  | indexError (msg : String)
  deriving DecidableEq, Repr

/-- The external `qecc.Pauli` class, reduced to the data the core reads:
its letter string `op` (phases are never consulted by `code.py`). -/
structure Pauli where
  op : String
  deriving DecidableEq, Repr

/-- `qecc.Pauli(s)`: constructing a Pauli from a string validates that
every letter is one of `IXYZ` (either case). -/
def Pauli.ofString (s : String) : Except PyErr Pauli :=
  if s.data.all (fun c => c ∈ ['I', 'X', 'Y', 'Z', 'i', 'x', 'y', 'z']) then
    Except.ok ⟨s⟩
  else
    Except.error (PyErr.valueError ("Invalid Pauli string: " ++ s))

/-- Single-site anticommutation: two Pauli letters anticommute iff both are
non-identity and distinct (case-insensitively). -/
def sitesAnticommute (a b : Char) : Bool :=
  a.toUpper != 'I' && b.toUpper != 'I' && a.toUpper != b.toUpper

/-- `qecc.commutes_with(p)(q)`: two Pauli strings commute iff the number of
sites at which their letters anticommute is even. -/
def commutes_with (p q : Pauli) : Bool :=
  ((p.op.data.zip q.op.data).countP (fun ab => sitesAnticommute ab.1 ab.2)) % 2 == 0

/-- `qecc.Pauli.tens`: tensor product of two Paulis concatenates their
letter strings. -/
def Pauli.tens (p q : Pauli) : Pauli := ⟨p.op ++ q.op⟩

/-- A value stored in a `Point.error` attribute: a plain string, a
`qecc.Pauli` object, or a value of any other Python type (carrying its
type name, for the claims about unrecognized representations). -/
inductive ErrRep where
  | str (s : String)
  | pauli (p : Pauli)
  | other (typeName : String)
  deriving DecidableEq, Repr

/-- A value stored in a `Point.syndrome` attribute (other than `None`):
a string (CSS mode) or an int (plain commutation mode). -/
inductive Syn where
  | int (n : ℤ)
  | str (s : String)
  deriving DecidableEq, Repr

/-- `str.format` / `str()` of a syndrome value, as used in error messages. -/
def Syn.format : Syn → String
  | Syn.int n => toString n
  | Syn.str s => s

/-- Python `+` on two syndrome values: int addition or string
concatenation; mixing the two types raises `TypeError`. -/
def synAdd : Syn → Syn → Except PyErr Syn
  | Syn.int a, Syn.int b => Except.ok (Syn.int (a + b))
  | Syn.str a, Syn.str b => Except.ok (Syn.str (a ++ b))
  | Syn.int _, Syn.str _ =>
      Except.error (PyErr.typeError "unsupported operand type(s) for +: int and str")
  | Syn.str _, Syn.int _ =>
      Except.error (PyErr.typeError "cannot concatenate str and int objects")

/-- Python `+` on two error representations: string concatenation is the
only supported case (`qecc.Pauli` defines no `+`). -/
def errAdd : ErrRep → ErrRep → Except PyErr ErrRep
  | ErrRep.str a, ErrRep.str b => Except.ok (ErrRep.str (a ++ b))
  | _, _ => Except.error (PyErr.typeError "unsupported operand type(s) for +")

/-- `_sum = lambda iterable: reduce(lambda a, b: a + b, iterable)` from
`code.py`; `reduce` of an empty sequence raises `TypeError`, and a
one-element sequence is returned unchanged without any `+`. -/
def listSum (l : List ErrRep) : Except PyErr ErrRep :=
  match l with
  | [] => Except.error (PyErr.typeError "reduce() of empty sequence with no initial value")
  | x :: xs => go x xs
where
  go : ErrRep → List ErrRep → Except PyErr ErrRep
  | acc, [] => Except.ok acc
  | acc, y :: ys =>
      match errAdd acc y with
      | Except.error e => Except.error e
      | Except.ok acc₂ => go acc₂ ys

/-- `reduce(lambda p1, p2: p1.tens(p2), ...)` from
`StabilizerCheck.evaluate`: tensor-reduce a list of error values; calling
`.tens` on anything but a pair of Paulis raises, and a one-element list is
returned unchanged. -/
def tensReduce (l : List ErrRep) : Except PyErr ErrRep :=
  match l with
  | [] => Except.error (PyErr.typeError "reduce() of empty sequence with no initial value")
  | x :: xs => go x xs
where
  go : ErrRep → List ErrRep → Except PyErr ErrRep
  | acc, [] => Except.ok acc
  | ErrRep.pauli a, ErrRep.pauli b :: ys => go (ErrRep.pauli (Pauli.tens a b)) ys
  | _, _ :: _ => Except.error (PyErr.typeError "tens requires Pauli operands")

/-- The `rule` attribute of a check: a lookup table (Python `dict` from
combined-error strings to syndromes), a function, or a value of any other
type (carrying its type name). -/
inductive Rule where
  | table (t : List (String × Syn))
  | fn (f : ErrRep → Except PyErr Syn)
  | other (typeName : String)

/-- Python `dict` lookup in a rule table (first binding wins). -/
def tableLookup (t : List (String × Syn)) (key : String) : Option Syn :=
  match t with
  | [] => none
  | (k, v) :: rest => if k = key then some v else tableLookup rest key

/-- A noise model: a probability and a syndrome-corruption function (which
itself may raise, like `letter_flip`). -/
def NoiseModel := ℚ × (Syn → Except PyErr Syn)

/-- The default noise model `(0., lambda a: a)` of `ErrorCheck.__init__`. -/
def defaultNoise : NoiseModel := (0, fun a => Except.ok a)

/-- The closure `noise_func` built in `ErrorCheck.__init__`: draw
`val = rand()` and corrupt the syndrome iff `val < prob`. -/
def noise_func (nm : NoiseModel) (val : ℚ) (syndrome : Syn) : Except PyErr Syn :=
  if val < nm.1 then nm.2 syndrome else Except.ok syndrome

/-- Identifier of a `Point` object in the heap. -/
abbrev PointId := ℕ

/-- The mutable attributes of all points: the `error` and `syndrome`
fields, indexed by point id.  `syndrome = none` models Python `None`. -/
structure State where
  error : PointId → ErrRep
  syndrome : PointId → Option Syn

/-- An `ErrorCheck` (or `StabilizerCheck`) instance: its `primal_sets`,
`dual_points`, `rule` and `noise_model` attributes, plus the `stabilizer`
attribute set only by `StabilizerCheck.__init__`. -/
structure Check where
  primal_sets : List (List PointId)
  dual_points : List PointId
  rule : Rule
  noise_model : NoiseModel
  stabilizer : Option Pauli := none

/-- The shared write pattern of both `evaluate` methods:
`if point.syndrome is None: point.syndrome = noise_func(v)
 else: point.syndrome += noise_func(v)`.
The right-hand side is evaluated first, so a raise leaves the point
unwritten. -/
def writeSyn (nm : NoiseModel) (rng : ℕ → ℚ) (dp : PointId) (v : Syn)
    (s : State) (k : ℕ) : Except PyErr (State × ℕ) :=
  match noise_func nm (rng k) v with
  | Except.error e => Except.error e
  | Except.ok noisy =>
    match s.syndrome dp with
    | none =>
        Except.ok ({ s with syndrome := fun q => if q = dp then some noisy else s.syndrome q },
                   k + 1)
    | some old =>
        match synAdd old noisy with
        | Except.error e => Except.error e
        | Except.ok comb =>
            Except.ok ({ s with syndrome := fun q => if q = dp then some comb else s.syndrome q },
                       k + 1)

/-- One iteration of the loop in `ErrorCheck.evaluate`, at loop index
`idx` with dual point `dp`: sum the errors of `primal_sets[idx]`, apply
the rule (dict lookup with the re-raised `KeyError`, or function call, or
`TypeError` for any other rule type), and write the noisy syndrome.
(For a non-string combined error, building the `KeyError` message
`"..." + error_str` itself raises `TypeError` in Python 2; we model that
case as the `TypeError`.) -/
def evalStep (c : Check) (rng : ℕ → ℚ) (idx : ℕ) (dp : PointId)
    (s : State) (k : ℕ) : Except PyErr (State × ℕ) :=
  match c.primal_sets.get? idx with
  | none => Except.error (PyErr.indexError "list index out of range")
  | some pset =>
    match listSum (pset.map s.error) with
    | Except.error e => Except.error e
    | Except.ok error_str =>
      match c.rule with
      | Rule.table t =>
        match error_str with
        | ErrRep.str es =>
          match tableLookup t es with
          | some v => writeSyn c.noise_model rng dp v s k
          | none =>
              Except.error (PyErr.keyError
                ("There is no entry in the lookup table for the error " ++ es))
        | _ => Except.error (PyErr.typeError "cannot concatenate str and non-str objects")
      | Rule.fn f =>
        match f error_str with
        | Except.error e => Except.error e
        | Except.ok v => writeSyn c.noise_model rng dp v s k
      | Rule.other tn =>
          Except.error (PyErr.typeError
            ("Rule used by error check must be a function or dict, you entered a value of type: "
              ++ tn))

/-- The `for idx, point in enumerate(self.dual_points)` loop of
`ErrorCheck.evaluate`: run the steps in order; a raise aborts the loop but
keeps the earlier iterations' writes. -/
def evalLoop (c : Check) (rng : ℕ → ℚ) :
    ℕ → List PointId → State → ℕ → (State × ℕ) × Option PyErr
  | _, [], s, k => ((s, k), none)
  | idx, dp :: rest, s, k =>
    match evalStep c rng idx dp s k with
    | Except.error e => ((s, k), some e)
    | Except.ok (s', k') => evalLoop c rng (idx + 1) rest s' k'

/-- `ErrorCheck.evaluate`. -/
def ErrorCheck.evaluate (c : Check) (rng : ℕ → ℚ) (s : State) (k : ℕ) :
    (State × ℕ) × Option PyErr :=
  evalLoop c rng 0 c.dual_points s k

/-- The commutation test shared by both CSS branches of `stab_rule`:
return the chosen letter if the error anticommutes with the stabilizer,
and `''` if it commutes. -/
def cssFinish (stabilizer err_pauli : Pauli) (syn_str : String) : Except PyErr Syn :=
  if !(commutes_with stabilizer err_pauli) then Except.ok (Syn.str syn_str)
  else Except.ok (Syn.str "")

/-- The body of the CSS `stab_rule` after the input typecheck: pick the
letter from the stabilizer's own letters (`'Z'` for an all-X stabilizer,
`'X'` for an all-Z one, `ValueError` for a mixed one), then test
commutation.  (`"{0}".format(stabilizer)` is rendered by the stabilizer's
letter string.) -/
def stab_rule_css_core (stabilizer err_pauli : Pauli) : Except PyErr Syn :=
  if stabilizer.op.data.all (fun ltr => ltr = 'x' || ltr = 'X') then
    cssFinish stabilizer err_pauli "Z"
  else if stabilizer.op.data.all (fun ltr => ltr = 'z' || ltr = 'Z') then
    cssFinish stabilizer err_pauli "X"
  else
    Except.error (PyErr.valueError
      ("CSS Stabilizers must be all-X or all-Z; you entered: " ++ stabilizer.op))

/-- The inner `stab_rule` of `StabilizerCheck.__init__` when
`indy_css=True`: typecheck the input (string or Pauli, else `TypeError`),
then dispatch to the CSS body. -/
def stab_rule_css (stabilizer : Pauli) (err_str : ErrRep) : Except PyErr Syn :=
  match err_str with
  | ErrRep.str s =>
    match Pauli.ofString s with
    | Except.error e => Except.error e
    | Except.ok err_pauli => stab_rule_css_core stabilizer err_pauli
  | ErrRep.pauli err_pauli => stab_rule_css_core stabilizer err_pauli
  | ErrRep.other _ =>
      Except.error (PyErr.typeError "Input type to stabilizer rule not understood.")

/-- The `stab_rule` lambda of `StabilizerCheck.__init__` when
`indy_css=False`: `1 - int(commutes_with(stabilizer)(Pauli(err_str)))`.
`Pauli(err_str)` needs a string argument. -/
def stab_rule_plain (stabilizer : Pauli) (err_str : ErrRep) : Except PyErr Syn :=
  match err_str with
  | ErrRep.str s =>
    match Pauli.ofString s with
    | Except.error e => Except.error e
    | Except.ok p =>
        Except.ok (Syn.int (1 - (if commutes_with stabilizer p then 1 else 0)))
  | _ => Except.error (PyErr.typeError "Pauli constructor expects a string")

/-- `StabilizerCheck.__init__`: cast the stabilizer string to a `Pauli`,
build `stab_rule` from the `indy_css` flag, and initialize the parent
check with it.  No other validation happens at construction time. -/
def StabilizerCheck.init (primal_sets : List (List PointId))
    (dual_points : List PointId) (stabilizer : String)
    (noise_model : NoiseModel := defaultNoise) (indy_css : Bool := false) :
    Except PyErr Check :=
  match Pauli.ofString stabilizer with
  | Except.error e => Except.error e
  | Except.ok stab =>
      Except.ok
        { primal_sets := primal_sets
          dual_points := dual_points
          rule := Rule.fn (if indy_css then stab_rule_css stab else stab_rule_plain stab)
          noise_model := noise_model
          stabilizer := some stab }

/-- One iteration of the Pauli-object loop of `StabilizerCheck.evaluate`:
tensor the errors of `primal_sets[idx]`, call `self.rule` on the result
(a `dict` rule would not be callable), and write the noisy syndrome. -/
def stabPauliStep (c : Check) (rng : ℕ → ℚ) (idx : ℕ) (dp : PointId)
    (s : State) (k : ℕ) : Except PyErr (State × ℕ) :=
  match c.primal_sets.get? idx with
  | none => Except.error (PyErr.indexError "list index out of range")
  | some pset =>
    match tensReduce (pset.map s.error) with
    | Except.error e => Except.error e
    | Except.ok multi_bit_error =>
      match c.rule with
      | Rule.fn f =>
        match f multi_bit_error with
        | Except.error e => Except.error e
        | Except.ok v => writeSyn c.noise_model rng dp v s k
      | _ => Except.error (PyErr.typeError "object is not callable")

/-- The Pauli-object loop of `StabilizerCheck.evaluate`. -/
def stabPauliLoop (c : Check) (rng : ℕ → ℚ) :
    ℕ → List PointId → State → ℕ → (State × ℕ) × Option PyErr
  | _, [], s, k => ((s, k), none)
  | idx, dp :: rest, s, k =>
    match stabPauliStep c rng idx dp s k with
    | Except.error e => ((s, k), some e)
    | Except.ok (s', k') => stabPauliLoop c rng (idx + 1) rest s' k'

/-- `StabilizerCheck.evaluate`: read `self.primal_sets[0][0].error` (an
`IndexError` if either list is empty) and dispatch on its type: strings go
through the parent's `evaluate`, Paulis through the tensor-product loop,
and any other type falls off the end of the `if`/`elif` chain, returning
without doing anything. -/
def StabilizerCheck.evaluate (c : Check) (rng : ℕ → ℚ) (s : State) (k : ℕ) :
    (State × ℕ) × Option PyErr :=
  match c.primal_sets.get? 0 with
  | none => ((s, k), some (PyErr.indexError "list index out of range"))
  | some g0 =>
    match g0.get? 0 with
    | none => ((s, k), some (PyErr.indexError "list index out of range"))
    | some pid =>
      match s.error pid with
      | ErrRep.str _ => ErrorCheck.evaluate c rng s k
      | ErrRep.pauli _ => stabPauliLoop c rng 0 c.dual_points s k
      | ErrRep.other _ => ((s, k), none)

/-- A parity check held by an `ErrorCorrectingCode`: a plain `ErrorCheck`
or a `StabilizerCheck` (whose class determines which `evaluate` runs). -/
inductive PCheck where
  | plain (c : Check)
  | stab (c : Check)

/-- Dynamic dispatch of `check.evaluate()` on the check's class. -/
def PCheck.evaluate : PCheck → (ℕ → ℚ) → State → ℕ → (State × ℕ) × Option PyErr
  | PCheck.plain c => ErrorCheck.evaluate c
  | PCheck.stab c => StabilizerCheck.evaluate c

/-- `ErrorCorrectingCode`: a named list of parity checks. -/
structure ErrorCorrectingCode where
  parity_check_list : List PCheck
  name : String := "Un-named"

/-- The loop of `ErrorCorrectingCode.measure`: evaluate each check in list
order; an exception propagates, skipping the remaining checks. -/
def measureList (rng : ℕ → ℚ) :
    List PCheck → State → ℕ → (State × ℕ) × Option PyErr
  | [], s, k => ((s, k), none)
  | ch :: rest, s, k =>
    match ch.evaluate rng s k with
    | ((s', k'), none) => measureList rng rest s' k'
    | r => r

/-- `ErrorCorrectingCode.measure`. -/
def ErrorCorrectingCode.measure (code : ErrorCorrectingCode) (rng : ℕ → ℚ)
    (s : State) (k : ℕ) : (State × ℕ) × Option PyErr :=
  measureList rng code.parity_check_list s k

/-- `letter_flip(synd, letter)` from `code.py`: flip a syndrome between
`letter` and `''`, raising `ValueError` on any other syndrome. -/
def letter_flip (synd : Syn) (letter : String) : Except PyErr Syn :=
  if synd = Syn.str letter then Except.ok (Syn.str "")
  else if synd = Syn.str "" then Except.ok (Syn.str letter)
  else Except.error (PyErr.valueError ("Unknown syndrome: " ++ synd.format))

/-- `z_flip = lambda synd: letter_flip(synd, 'Z')`. -/
def z_flip (synd : Syn) : Except PyErr Syn := letter_flip synd "Z"

/-- `x_flip = lambda synd: letter_flip(synd, 'X')`. -/
def x_flip (synd : Syn) : Except PyErr Syn := letter_flip synd "X"

/-- A heap state with the given error attributes and every syndrome
attribute still `None` (a freshly built dual lattice). -/
def errorOnlyState (e : PointId → ErrRep) : State :=
  { error := e, syndrome := fun _ => none }

/-- A weight-1 error pattern in string representation: the given letter at
point `j`, the identity letter everywhere else. -/
def singleSite (letter : String) (j : PointId) : PointId → ErrRep :=
  fun p => if p = j then ErrRep.str letter else ErrRep.str "I"

/-- The four-body `'XXXX'` star check of the toric code (cf.
`toric_code`/`noisy_toric_code`), over one primal group `[0,1,2,3]` and
one dual point `4`, with the default noise model: the value produced by
`StabilizerCheck([[0,1,2,3]], [4], 'XXXX', indy_css=True)`. -/
def starCheckXXXX : Check :=
  { primal_sets := [[0, 1, 2, 3]]
    dual_points := [4]
    rule := Rule.fn (stab_rule_css ⟨"XXXX"⟩)
    noise_model := defaultNoise
    stabilizer := some ⟨"XXXX"⟩ }

/-- A heap whose points all hold an error of an unrecognized Python type
(an `int`), neither a string nor a `qecc.Pauli`. -/
def intErrorState : State := errorOnlyState (fun _ => ErrRep.other "int")

/-- A two-body check with a lookup-table rule whose table only maps the
combined error `'II'`: used against a combined error absent from it. -/
def lookupCheckII : Check :=
  { primal_sets := [[0, 1]]
    dual_points := [2]
    rule := Rule.table [("II", Syn.str "")]
    noise_model := defaultNoise }

/-! ## Helper lemmas -/

/-- With corruption probability `0` and a nonnegative draw, `noise_func`
returns the syndrome unchanged. -/
theorem noise_func_zero_prob (nm : NoiseModel) (h0 : nm.1 = 0) (val : ℚ)
    (h : 0 ≤ val) (v : Syn) : noise_func nm val v = Except.ok v := by
  unfold noise_func
  rw [h0, if_neg (not_lt.mpr h)]

/-- With corruption probability `0` and nonnegative draws, `writeSyn` does
not depend on the random stream. -/
theorem writeSyn_rng_irrel (nm : NoiseModel) (h0 : nm.1 = 0) (rng : ℕ → ℚ)
    (h : ∀ i, 0 ≤ rng i) (dp : PointId) (v : Syn) (s : State) (k : ℕ) :
    writeSyn nm rng dp v s k = writeSyn nm (fun _ => 0) dp v s k := by
  unfold writeSyn
  rw [noise_func_zero_prob nm h0 (rng k) (h k), noise_func_zero_prob nm h0 0 le_rfl]

/-- With corruption probability `0` and nonnegative draws, `evalStep` does
not depend on the random stream. -/
theorem evalStep_rng_irrel (c : Check) (h0 : c.noise_model.1 = 0)
    (rng : ℕ → ℚ) (h : ∀ i, 0 ≤ rng i) (idx : ℕ) (dp : PointId) (s : State)
    (k : ℕ) : evalStep c rng idx dp s k = evalStep c (fun _ => 0) idx dp s k := by
  unfold evalStep
  repeat' split
  all_goals first
    | rfl
    | exact writeSyn_rng_irrel c.noise_model h0 rng h dp _ s k

/-- With corruption probability `0` and nonnegative draws, `evalLoop` does
not depend on the random stream. -/
theorem evalLoop_rng_irrel (c : Check) (h0 : c.noise_model.1 = 0)
    (rng : ℕ → ℚ) (h : ∀ i, 0 ≤ rng i) (l : List PointId) :
    ∀ (idx : ℕ) (s : State) (k : ℕ),
      evalLoop c rng idx l s k = evalLoop c (fun _ => 0) idx l s k := by
  induction l with
  | nil => intro idx s k; rfl
  | cons dp rest ih =>
    intro idx s k
    unfold evalLoop
    rw [evalStep_rng_irrel c h0 rng h idx dp s k]
    cases evalStep c (fun _ => 0) idx dp s k with
    | error e => rfl
    | ok p =>
      obtain ⟨s', k'⟩ := p
      exact ih (idx + 1) s' k'

/-- With corruption probability `0` and nonnegative draws,
`ErrorCheck.evaluate` does not depend on the random stream. -/
theorem evaluate_rng_irrel (c : Check) (h0 : c.noise_model.1 = 0)
    (rng : ℕ → ℚ) (h : ∀ i, 0 ≤ rng i) (s : State) (k : ℕ) :
    ErrorCheck.evaluate c rng s k = ErrorCheck.evaluate c (fun _ => 0) s k :=
  evalLoop_rng_irrel c h0 rng h c.dual_points 0 s k

/-- A successful `writeSyn` leaves every point's error attribute
unchanged. -/
theorem writeSyn_error_eq (nm : NoiseModel) (rng : ℕ → ℚ) (dp : PointId)
    (v : Syn) (s : State) (k : ℕ) (s' : State) (k' : ℕ)
    (h : writeSyn nm rng dp v s k = Except.ok (s', k')) : s'.error = s.error := by
  unfold writeSyn at h
  split at h
  · exact Except.noConfusion h
  · split at h
    · exact (congrArg (fun p : State × ℕ => p.1.error) (Except.ok.inj h)).symm
    · split at h
      · exact Except.noConfusion h
      · exact (congrArg (fun p : State × ℕ => p.1.error) (Except.ok.inj h)).symm

/-- Every successful `evalStep` is a `writeSyn` on its dual point. -/
theorem evalStep_ok_writeSyn (c : Check) (rng : ℕ → ℚ) (idx : ℕ)
    (dp : PointId) (s : State) (k : ℕ) (s' : State) (k' : ℕ)
    (h : evalStep c rng idx dp s k = Except.ok (s', k')) :
    ∃ v, writeSyn c.noise_model rng dp v s k = Except.ok (s', k') := by
  unfold evalStep at h
  repeat' split at h
  all_goals first
    | exact Except.noConfusion h
    | exact ⟨_, h⟩

/-- Every successful `stabPauliStep` is a `writeSyn` on its dual point. -/
theorem stabPauliStep_ok_writeSyn (c : Check) (rng : ℕ → ℚ) (idx : ℕ)
    (dp : PointId) (s : State) (k : ℕ) (s' : State) (k' : ℕ)
    (h : stabPauliStep c rng idx dp s k = Except.ok (s', k')) :
    ∃ v, writeSyn c.noise_model rng dp v s k = Except.ok (s', k') := by
  unfold stabPauliStep at h
  repeat' split at h
  all_goals first
    | exact Except.noConfusion h
    | exact ⟨_, h⟩

/-- A successful `evalStep` leaves every error attribute unchanged. -/
theorem evalStep_error_eq (c : Check) (rng : ℕ → ℚ) (idx : ℕ) (dp : PointId)
    (s : State) (k : ℕ) (s' : State) (k' : ℕ)
    (h : evalStep c rng idx dp s k = Except.ok (s', k')) : s'.error = s.error := by
  obtain ⟨v, hv⟩ := evalStep_ok_writeSyn c rng idx dp s k s' k' h
  exact writeSyn_error_eq c.noise_model rng dp v s k s' k' hv

/-- A successful `stabPauliStep` leaves every error attribute unchanged. -/
theorem stabPauliStep_error_eq (c : Check) (rng : ℕ → ℚ) (idx : ℕ)
    (dp : PointId) (s : State) (k : ℕ) (s' : State) (k' : ℕ)
    (h : stabPauliStep c rng idx dp s k = Except.ok (s', k')) : s'.error = s.error := by
  obtain ⟨v, hv⟩ := stabPauliStep_ok_writeSyn c rng idx dp s k s' k' h
  exact writeSyn_error_eq c.noise_model rng dp v s k s' k' hv

/-- `evalLoop` leaves every error attribute unchanged (raised or not). -/
theorem evalLoop_error_eq (c : Check) (rng : ℕ → ℚ) (l : List PointId) :
    ∀ (idx : ℕ) (s : State) (k : ℕ),
      ((evalLoop c rng idx l s k).1.1).error = s.error := by
  induction l with
  | nil => intro idx s k; rfl
  | cons dp rest ih =>
    intro idx s k
    unfold evalLoop
    cases hstep : evalStep c rng idx dp s k with
    | error e => rfl
    | ok p =>
      obtain ⟨s', k'⟩ := p
      exact (ih (idx + 1) s' k').trans (evalStep_error_eq c rng idx dp s k s' k' hstep)

/-- `stabPauliLoop` leaves every error attribute unchanged. -/
theorem stabPauliLoop_error_eq (c : Check) (rng : ℕ → ℚ) (l : List PointId) :
    ∀ (idx : ℕ) (s : State) (k : ℕ),
      ((stabPauliLoop c rng idx l s k).1.1).error = s.error := by
  induction l with
  | nil => intro idx s k; rfl
  | cons dp rest ih =>
    intro idx s k
    unfold stabPauliLoop
    cases hstep : stabPauliStep c rng idx dp s k with
    | error e => rfl
    | ok p =>
      obtain ⟨s', k'⟩ := p
      exact (ih (idx + 1) s' k').trans (stabPauliStep_error_eq c rng idx dp s k s' k' hstep)

/-- `ErrorCheck.evaluate` leaves every error attribute unchanged. -/
theorem errorCheck_evaluate_error_eq (c : Check) (rng : ℕ → ℚ) (s : State)
    (k : ℕ) : ((ErrorCheck.evaluate c rng s k).1.1).error = s.error :=
  evalLoop_error_eq c rng c.dual_points 0 s k

/-- `StabilizerCheck.evaluate` leaves every error attribute unchanged. -/
theorem stabCheck_evaluate_error_eq (c : Check) (rng : ℕ → ℚ)
    (s : State) (k : ℕ) :
    ((StabilizerCheck.evaluate c rng s k).1.1).error = s.error := by
  unfold StabilizerCheck.evaluate
  split
  · rfl
  · split
    · rfl
    · split
      · exact errorCheck_evaluate_error_eq c rng s k
      · exact stabPauliLoop_error_eq c rng c.dual_points 0 s k
      · rfl

/-- Either `evaluate` leaves every error attribute unchanged. -/
theorem pcheck_evaluate_error_eq (pc : PCheck) (rng : ℕ → ℚ) (s : State)
    (k : ℕ) : ((PCheck.evaluate pc rng s k).1.1).error = s.error := by
  cases pc with
  | plain c => exact errorCheck_evaluate_error_eq c rng s k
  | stab c => exact stabCheck_evaluate_error_eq c rng s k

/-- `measureList` leaves every error attribute unchanged. -/
theorem measureList_error_eq (rng : ℕ → ℚ) (l : List PCheck) :
    ∀ (s : State) (k : ℕ), ((measureList rng l s k).1.1).error = s.error := by
  induction l with
  | nil => intro s k; rfl
  | cons ch rest ih =>
    intro s k
    unfold measureList
    cases hstep : PCheck.evaluate ch rng s k with
    | mk p e =>
      obtain ⟨s', k'⟩ := p
      have h1 : s'.error = s.error := by
        have h2 := pcheck_evaluate_error_eq ch rng s k
        rw [hstep] at h2
        exact h2
      cases e with
      | none => exact (ih s' k').trans h1
      | some err => exact h1

/-- If the combined error string of the group is absent from a
lookup-table rule, the step raises the re-raised `KeyError` naming it. -/
theorem evalStep_table_miss (c : Check) (t : List (String × Syn))
    (rng : ℕ → ℚ) (idx : ℕ) (dp : PointId) (s : State) (k : ℕ)
    (pset : List PointId) (es : String) (hr : c.rule = Rule.table t)
    (hp : c.primal_sets.get? idx = some pset)
    (hsum : listSum (pset.map s.error) = Except.ok (ErrRep.str es))
    (hlook : tableLookup t es = none) :
    evalStep c rng idx dp s k = Except.error (PyErr.keyError
      ("There is no entry in the lookup table for the error " ++ es)) := by
  unfold evalStep
  simp only [hp, hsum, hr, hlook]

/-- When the first primal point's error is a string, the subclass
`evaluate` dispatches to the parent `ErrorCheck.evaluate`. -/
theorem stab_evaluate_str_path (c : Check) (rng : ℕ → ℚ) (s : State) (k : ℕ)
    (g : List PointId) (pid : PointId) (s₀ : String)
    (h1 : c.primal_sets.get? 0 = some g) (h2 : g.get? 0 = some pid)
    (h3 : s.error pid = ErrRep.str s₀) :
    StabilizerCheck.evaluate c rng s k = ErrorCheck.evaluate c rng s k := by
  unfold StabilizerCheck.evaluate
  simp only [h1, h2, h3]

/-! ## Claims -/

/-- Claim C1, counterexample: for the `'XXXX'` star check with
`indy_css=True` (the value constructed by `StabilizerCheck.__init__`), a
weight-1 Z error on the first primal point yields the syndrome label
`'Z'` — not `'X'` as claimed: `stab_rule` labels the syndrome with the
letter of the *detected error* (`'Z'` for an all-X stabilizer), which is
also the letter `noisy_toric_code` pairs with this check via `z_flip`. -/
theorem css_xxxx_syndrome_label_is_Z_not_X :
    StabilizerCheck.init [[0, 1, 2, 3]] [4] "XXXX" defaultNoise true
      = Except.ok starCheckXXXX ∧
    (StabilizerCheck.evaluate starCheckXXXX (fun _ => 0)
        (errorOnlyState (singleSite "Z" 0)) 0).1.1.syndrome 4
      = some (Syn.str "Z") ∧
    (some (Syn.str "Z") : Option Syn) ≠ some (Syn.str "X") :=
  ⟨rfl, by decide, by decide⟩

/-- Claim C1 (amended): for a `StabilizerCheck` built with stabilizer
`'XXXX'` and `indy_css=True` under the default noise model, evaluating any
single-site (weight-1) Z error — which anticommutes with the stabilizer —
writes the syndrome label `'Z'` to the corresponding dual point, and
evaluating a weight-1 X error (which commutes) writes the empty label
`''`. -/
theorem css_xxxx_weight_one_error_syndromes (rng : ℕ → ℚ)
    (h : ∀ i, 0 ≤ rng i) (j : Fin 4) :
    ∃ c, StabilizerCheck.init [[0, 1, 2, 3]] [4] "XXXX" defaultNoise true
        = Except.ok c ∧
      (StabilizerCheck.evaluate c rng
          (errorOnlyState (singleSite "Z" j.val)) 0).1.1.syndrome 4
        = some (Syn.str "Z") ∧
      (StabilizerCheck.evaluate c rng
          (errorOnlyState (singleSite "X" j.val)) 0).1.1.syndrome 4
        = some (Syn.str "") := by
  refine ⟨starCheckXXXX, rfl, ?_, ?_⟩ <;>
  · fin_cases j <;>
    · rw [stab_evaluate_str_path starCheckXXXX rng _ 0 _ _ _ rfl rfl rfl,
          evaluate_rng_irrel starCheckXXXX rfl rng h]
      decide

/-- Witness for `css_xxxx_weight_one_error_syndromes` at the all-zero
random stream and error position 0. -/
theorem css_xxxx_weight_one_error_syndromes_witness :
    (∀ i : ℕ, (0 : ℚ) ≤ (fun _ => (0 : ℚ)) i) ∧
    (∃ c, StabilizerCheck.init [[0, 1, 2, 3]] [4] "XXXX" defaultNoise true
        = Except.ok c ∧
      (StabilizerCheck.evaluate c (fun _ => (0 : ℚ))
          (errorOnlyState (singleSite "Z" (0 : Fin 4).val)) 0).1.1.syndrome 4
        = some (Syn.str "Z") ∧
      (StabilizerCheck.evaluate c (fun _ => (0 : ℚ))
          (errorOnlyState (singleSite "X" (0 : Fin 4).val)) 0).1.1.syndrome 4
        = some (Syn.str "")) :=
  ⟨fun _ => le_rfl,
   css_xxxx_weight_one_error_syndromes (fun _ => 0) (fun _ => le_rfl) 0⟩

/-- Claim C2 (exhibiting the code defect): evaluating the `'XXXX'` CSS
stabilizer check on points whose error attribute holds a value of an
unrecognized type (an `int`) returns silently — no exception is raised
(second component `none`), no syndrome is written and no point state is
touched — because the `if`/`elif` chain of `StabilizerCheck.evaluate` has
no `else` branch.  The spec requires a fatal, surfaced error here. -/
theorem stab_evaluate_unrecognized_type_silent_return :
    StabilizerCheck.init [[0, 1, 2, 3]] [4] "XXXX" defaultNoise true
      = Except.ok starCheckXXXX ∧
    StabilizerCheck.evaluate starCheckXXXX (fun _ => 0) intErrorState 0
      = ((intErrorState, 0), none) ∧
    intErrorState.syndrome 4 = none :=
  ⟨rfl, rfl, rfl⟩

/-- Claim C3, counterexample: `StabilizerCheck.__init__` with
`indy_css=True` accepts the mixed stabilizer string `'XZXZ'` without any
error — the all-X/all-Z validation lives inside `stab_rule` and only runs
when the rule is first called. -/
theorem mixed_css_stabilizer_constructs_without_error :
    (StabilizerCheck.init [[0, 1, 2, 3]] [4] "XZXZ" defaultNoise true).isOk
      = true := rfl

/-- Claim C3 (amended): a `StabilizerCheck` with `indy_css=True` and the
mixed stabilizer `'XZXZ'` is constructed without error; the
`ValueError` naming the offending stabilizer is raised on the first call
of its rule — in particular the first `evaluate()` raises it and writes
nothing. -/
theorem mixed_css_stabilizer_valueerror_at_first_evaluate (rng : ℕ → ℚ)
    (k : ℕ) (p : Pauli) :
    ∃ c, StabilizerCheck.init [[0, 1, 2, 3]] [4] "XZXZ" defaultNoise true
        = Except.ok c ∧
      stab_rule_css ⟨"XZXZ"⟩ (ErrRep.pauli p)
        = Except.error (PyErr.valueError
            "CSS Stabilizers must be all-X or all-Z; you entered: XZXZ") ∧
      StabilizerCheck.evaluate c rng (errorOnlyState (singleSite "X" 0)) k
        = ((errorOnlyState (singleSite "X" 0), k),
           some (PyErr.valueError
             "CSS Stabilizers must be all-X or all-Z; you entered: XZXZ")) := by
  refine ⟨_, rfl, rfl, rfl⟩

/-- Claim C4: for every check whose rule is a lookup table, a combined
error string with no entry in the table makes the evaluation step raise
the `KeyError` naming the unmapped string; when this happens at the first
dual point, `evaluate()` aborts with that `KeyError`, returning the state
completely unchanged — no default syndrome is written to the point. -/
theorem lookup_table_unmapped_error_raises_keyerror :
    (∀ (c : Check) (t : List (String × Syn)) (rng : ℕ → ℚ) (idx : ℕ)
       (dp : PointId) (s : State) (k : ℕ) (pset : List PointId) (es : String),
       c.rule = Rule.table t →
       c.primal_sets.get? idx = some pset →
       listSum (pset.map s.error) = Except.ok (ErrRep.str es) →
       tableLookup t es = none →
       evalStep c rng idx dp s k = Except.error (PyErr.keyError
         ("There is no entry in the lookup table for the error " ++ es))) ∧
    (∀ (c : Check) (t : List (String × Syn)) (rng : ℕ → ℚ) (dp : PointId)
       (rest : List PointId) (s : State) (k : ℕ) (pset : List PointId)
       (es : String),
       c.rule = Rule.table t →
       c.dual_points = dp :: rest →
       c.primal_sets.get? 0 = some pset →
       listSum (pset.map s.error) = Except.ok (ErrRep.str es) →
       tableLookup t es = none →
       ErrorCheck.evaluate c rng s k = ((s, k), some (PyErr.keyError
         ("There is no entry in the lookup table for the error " ++ es)))) := by
  constructor
  · intro c t rng idx dp s k pset es hr hp hsum hlook
    exact evalStep_table_miss c t rng idx dp s k pset es hr hp hsum hlook
  · intro c t rng dp rest s k pset es hr hd hp hsum hlook
    unfold ErrorCheck.evaluate
    rw [hd]
    unfold evalLoop
    rw [evalStep_table_miss c t rng 0 dp s k pset es hr hp hsum hlook]

/-- Witness for `lookup_table_unmapped_error_raises_keyerror`: the
two-body lookup check with table `{'II': ''}` against the combined error
`'XX'`. -/
theorem lookup_table_unmapped_error_raises_keyerror_witness :
    ErrorCheck.evaluate lookupCheckII (fun _ => 0)
        (errorOnlyState (fun _ => ErrRep.str "X")) 0
      = (((errorOnlyState (fun _ => ErrRep.str "X")), 0),
         some (PyErr.keyError
           "There is no entry in the lookup table for the error XX")) :=
  lookup_table_unmapped_error_raises_keyerror.2 lookupCheckII
    [("II", Syn.str "")] (fun _ => 0) 2 [] (errorOnlyState (fun _ => ErrRep.str "X"))
    0 [0, 1] "XX" rfl rfl rfl rfl rfl

/-- Claim C5: every successful evaluation step — of either `evaluate` —
goes through `writeSyn`, and `writeSyn` never overwrites an already-set
syndrome: when the dual point's syndrome is the sentinel `None` the noisy
syndrome is assigned, and otherwise it is combined into the existing value
with Python `+` (`synAdd`); all other points are untouched. -/
theorem syndrome_accumulate_never_overwrite :
    (∀ (nm : NoiseModel) (rng : ℕ → ℚ) (dp : PointId) (v : Syn) (s : State)
       (k : ℕ) (s' : State) (k' : ℕ),
       writeSyn nm rng dp v s k = Except.ok (s', k') →
       ∃ noisy, noise_func nm (rng k) v = Except.ok noisy ∧
         (s.syndrome dp = none → s'.syndrome dp = some noisy) ∧
         (∀ old, s.syndrome dp = some old →
            ∃ comb, synAdd old noisy = Except.ok comb ∧
              s'.syndrome dp = some comb) ∧
         (∀ q, q ≠ dp → s'.syndrome q = s.syndrome q)) ∧
    (∀ (c : Check) (rng : ℕ → ℚ) (idx : ℕ) (dp : PointId) (s : State) (k : ℕ)
       (s' : State) (k' : ℕ),
       evalStep c rng idx dp s k = Except.ok (s', k') →
       ∃ v, writeSyn c.noise_model rng dp v s k = Except.ok (s', k')) ∧
    (∀ (c : Check) (rng : ℕ → ℚ) (idx : ℕ) (dp : PointId) (s : State) (k : ℕ)
       (s' : State) (k' : ℕ),
       stabPauliStep c rng idx dp s k = Except.ok (s', k') →
       ∃ v, writeSyn c.noise_model rng dp v s k = Except.ok (s', k')) := by
  refine ⟨?_, ?_, ?_⟩
  · intro nm rng dp v s k s' k' h
    unfold writeSyn at h
    split at h
    · exact Except.noConfusion h
    next noisy heq =>
      refine ⟨noisy, heq, ?_⟩
      split at h
      next hsdp =>
        injection h with h'
        injection h' with hs hk
        subst hs
        refine ⟨fun _ => by simp, fun old hold => ?_, fun q hq => by simp [hq]⟩
        rw [hsdp] at hold
        exact Option.noConfusion hold
      next old hsdp =>
        split at h
        · exact Except.noConfusion h
        next comb heq2 =>
          injection h with h'
          injection h' with hs hk
          subst hs
          refine ⟨fun hnone => ?_, fun old' hold => ?_, fun q hq => by simp [hq]⟩
          · rw [hsdp] at hnone
            exact Option.noConfusion hnone
          · rw [hsdp] at hold
            obtain rfl : old = old' := Option.some.inj hold
            exact ⟨comb, heq2, by simp⟩
  · exact evalStep_ok_writeSyn
  · exact stabPauliStep_ok_writeSyn

/-- Witness for `syndrome_accumulate_never_overwrite`: a concrete
successful `writeSyn` of `'X'` onto point 1 of a fresh dual lattice. -/
theorem syndrome_accumulate_never_overwrite_witness :
    ∃ noisy, noise_func defaultNoise ((fun _ => (0 : ℚ)) 0) (Syn.str "X")
        = Except.ok noisy ∧
      ((errorOnlyState (fun _ => ErrRep.str "I")).syndrome 1 = none →
        ({ errorOnlyState (fun _ => ErrRep.str "I") with
            syndrome := fun q => if q = 1 then some (Syn.str "X")
              else (errorOnlyState (fun _ => ErrRep.str "I")).syndrome q
         } : State).syndrome 1 = some noisy) ∧
      (∀ old, (errorOnlyState (fun _ => ErrRep.str "I")).syndrome 1 = some old →
        ∃ comb, synAdd old noisy = Except.ok comb ∧
          ({ errorOnlyState (fun _ => ErrRep.str "I") with
              syndrome := fun q => if q = 1 then some (Syn.str "X")
                else (errorOnlyState (fun _ => ErrRep.str "I")).syndrome q
           } : State).syndrome 1 = some comb) ∧
      (∀ q, q ≠ 1 →
        ({ errorOnlyState (fun _ => ErrRep.str "I") with
            syndrome := fun q => if q = 1 then some (Syn.str "X")
              else (errorOnlyState (fun _ => ErrRep.str "I")).syndrome q
         } : State).syndrome q
          = (errorOnlyState (fun _ => ErrRep.str "I")).syndrome q) :=
  syndrome_accumulate_never_overwrite.1 defaultNoise (fun _ => 0) 1
    (Syn.str "X") (errorOnlyState (fun _ => ErrRep.str "I")) 0 _ 1 rfl

/-- Claim C6: `ErrorCorrectingCode.measure` evaluates its checks exactly
once each, in list order (the base and step equations below), and never
changes any point's error attribute: the primal error state is preserved
verbatim, raised exception or not. -/
theorem measure_in_order_preserves_primal_errors :
    (∀ (code : ErrorCorrectingCode) (rng : ℕ → ℚ) (s : State) (k : ℕ),
       ((code.measure rng s k).1.1).error = s.error) ∧
    (∀ (nm : String) (rng : ℕ → ℚ) (s : State) (k : ℕ),
       (ErrorCorrectingCode.mk [] nm).measure rng s k = ((s, k), none)) ∧
    (∀ (nm : String) (ch : PCheck) (rest : List PCheck) (rng : ℕ → ℚ)
       (s : State) (k : ℕ),
       (ErrorCorrectingCode.mk (ch :: rest) nm).measure rng s k =
         match PCheck.evaluate ch rng s k with
         | ((s', k'), none) => (ErrorCorrectingCode.mk rest nm).measure rng s' k'
         | r => r) := by
  refine ⟨?_, ?_, ?_⟩
  · intro code rng s k
    exact measureList_error_eq rng code.parity_check_list s k
  · intro nm rng s k
    rfl
  · intro nm ch rest rng s k
    rfl

/-- Claim C7: the `noise_func` closure applies the configured corruption
function exactly when the fresh uniform draw is strictly below the
configured probability, returns the syndrome unchanged otherwise, and in
particular under the default noise model `(0., identity)` every
nonnegative draw leaves every syndrome unchanged. -/
theorem noise_func_bernoulli_spec (nm : NoiseModel) (val : ℚ) (v : Syn) :
    (val < nm.1 → noise_func nm val v = nm.2 v) ∧
    (¬ val < nm.1 → noise_func nm val v = Except.ok v) ∧
    (0 ≤ val → noise_func defaultNoise val v = Except.ok v) := by
  refine ⟨fun h => ?_, fun h => ?_, fun h => ?_⟩
  · unfold noise_func
    rw [if_pos h]
  · unfold noise_func
    rw [if_neg h]
  · exact noise_func_zero_prob defaultNoise rfl val h v

/-- Witness for `noise_func_bernoulli_spec`: a draw of `1/2` against
probability `1` corrupts, and a draw of `3/4` under the default model does
not. -/
theorem noise_func_bernoulli_spec_witness :
    ((1 : ℚ) / 2 < 1 ∧
      noise_func (1, fun _ => Except.ok (Syn.str "X")) (1 / 2) (Syn.str "")
        = Except.ok (Syn.str "X")) ∧
    (0 ≤ (3 : ℚ) / 4 ∧
      noise_func defaultNoise (3 / 4) (Syn.str "Z") = Except.ok (Syn.str "Z")) :=
  ⟨⟨by norm_num,
    (noise_func_bernoulli_spec (1, fun _ => Except.ok (Syn.str "X")) (1 / 2)
      (Syn.str "")).1 (by norm_num)⟩,
   ⟨by norm_num,
    (noise_func_bernoulli_spec defaultNoise (3 / 4) (Syn.str "Z")).2.2
      (by norm_num)⟩⟩

/-- Claim C8: for each flip letter `L ∈ {'X','Z'}`, `letter_flip` maps the
syndrome `L` to `''` and `''` to `L` (an involution on `{'', L}`), and
raises a `ValueError` naming the syndrome on any other input. -/
theorem letter_flip_involution_spec (L : String) (hL : L = "X" ∨ L = "Z") :
    letter_flip (Syn.str L) L = Except.ok (Syn.str "") ∧
    letter_flip (Syn.str "") L = Except.ok (Syn.str L) ∧
    (letter_flip (Syn.str L) L).bind (fun r => letter_flip r L)
      = Except.ok (Syn.str L) ∧
    (letter_flip (Syn.str "") L).bind (fun r => letter_flip r L)
      = Except.ok (Syn.str "") ∧
    (∀ synd : Syn, synd ≠ Syn.str L → synd ≠ Syn.str "" →
       letter_flip synd L = Except.error (PyErr.valueError
         ("Unknown syndrome: " ++ synd.format))) := by
  have main : ∀ M : String, M ≠ "" →
      letter_flip (Syn.str M) M = Except.ok (Syn.str "") ∧
      letter_flip (Syn.str "") M = Except.ok (Syn.str M) ∧
      (letter_flip (Syn.str M) M).bind (fun r => letter_flip r M)
        = Except.ok (Syn.str M) ∧
      (letter_flip (Syn.str "") M).bind (fun r => letter_flip r M)
        = Except.ok (Syn.str "") ∧
      (∀ synd : Syn, synd ≠ Syn.str M → synd ≠ Syn.str "" →
        letter_flip synd M = Except.error (PyErr.valueError
          ("Unknown syndrome: " ++ synd.format))) := by
    intro M hM
    have h1 : letter_flip (Syn.str M) M = Except.ok (Syn.str "") := by
      unfold letter_flip
      rw [if_pos rfl]
    have h2 : letter_flip (Syn.str "") M = Except.ok (Syn.str M) := by
      unfold letter_flip
      rw [if_neg (fun hc => hM (Syn.str.inj hc).symm), if_pos rfl]
    refine ⟨h1, h2, ?_, ?_, ?_⟩
    · rw [h1]
      exact h2
    · rw [h2]
      exact h1
    · intro synd hne1 hne2
      unfold letter_flip
      rw [if_neg hne1, if_neg hne2]
  cases hL with
  | inl h => exact h ▸ main "X" (by decide)
  | inr h => exact h ▸ main "Z" (by decide)

/-- Witness for `letter_flip_involution_spec` at the letter `'Z'`
(`z_flip`'s letter): flipping the syndrome `'Z'` yields `''`. -/
theorem letter_flip_involution_spec_witness :
    ("Z" = "X" ∨ "Z" = "Z") ∧
    letter_flip (Syn.str "Z") "Z" = Except.ok (Syn.str "") :=
  ⟨Or.inr rfl, (letter_flip_involution_spec "Z" (Or.inr rfl)).1⟩

/-- Claim C9: `evaluate()` is deterministic given its randomness: for any
check of either class, two runs from identical primal error state,
identical dual syndrome state and an identical stream of uniform draws
produce identical results (identical syndromes on every dual point, same
exception behaviour, same number of consumed draws). -/
theorem evaluate_deterministic_given_randomness (pc : PCheck)
    (rng₁ rng₂ : ℕ → ℚ) (s₁ s₂ : State) (k : ℕ) (he : s₁.error = s₂.error)
    (hs : s₁.syndrome = s₂.syndrome) (hr : rng₁ = rng₂) :
    PCheck.evaluate pc rng₁ s₁ k = PCheck.evaluate pc rng₂ s₂ k := by
  subst hr
  have hss : s₁ = s₂ := by
    cases s₁
    cases s₂
    cases he
    cases hs
    rfl
  rw [hss]

/-- Witness for `evaluate_deterministic_given_randomness`: the star check
on two identical fresh states with the all-zero stream. -/
theorem evaluate_deterministic_given_randomness_witness :
    PCheck.evaluate (PCheck.stab starCheckXXXX) (fun _ => 0)
        (errorOnlyState (singleSite "Z" 0)) 0
      = PCheck.evaluate (PCheck.stab starCheckXXXX) (fun _ => 0)
          (errorOnlyState (singleSite "Z" 0)) 0 :=
  evaluate_deterministic_given_randomness (PCheck.stab starCheckXXXX)
    (fun _ => 0) (fun _ => 0) (errorOnlyState (singleSite "Z" 0))
    (errorOnlyState (singleSite "Z" 0)) 0 rfl rfl rfl

/-- Claim C10: `StabilizerCheck.evaluate` selects its code path solely
from the representation of the error on `primal_sets[0][0]`: an empty
`primal_sets` or empty first group gives an `IndexError`; a string there
routes the whole check through the parent `evaluate`; a Pauli there routes
every group through the tensor-product loop; anything else returns
silently. -/
theorem stab_evaluate_dispatch_on_first_error (c : Check) (rng : ℕ → ℚ)
    (s : State) (k : ℕ) :
    (c.primal_sets.get? 0 = none →
       StabilizerCheck.evaluate c rng s k
         = ((s, k), some (PyErr.indexError "list index out of range"))) ∧
    (∀ g, c.primal_sets.get? 0 = some g → g.get? 0 = none →
       StabilizerCheck.evaluate c rng s k
         = ((s, k), some (PyErr.indexError "list index out of range"))) ∧
    (∀ g pid s₀, c.primal_sets.get? 0 = some g → g.get? 0 = some pid →
       s.error pid = ErrRep.str s₀ →
       StabilizerCheck.evaluate c rng s k = ErrorCheck.evaluate c rng s k) ∧
    (∀ g pid p, c.primal_sets.get? 0 = some g → g.get? 0 = some pid →
       s.error pid = ErrRep.pauli p →
       StabilizerCheck.evaluate c rng s k
         = stabPauliLoop c rng 0 c.dual_points s k) ∧
    (∀ g pid t, c.primal_sets.get? 0 = some g → g.get? 0 = some pid →
       s.error pid = ErrRep.other t →
       StabilizerCheck.evaluate c rng s k = ((s, k), none)) := by
  refine ⟨?_, ?_, ?_, ?_, ?_⟩
  · intro h
    unfold StabilizerCheck.evaluate
    simp only [h]
  · intro g h1 h2
    unfold StabilizerCheck.evaluate
    simp only [h1, h2]
  · intro g pid s₀ h1 h2 h3
    exact stab_evaluate_str_path c rng s k g pid s₀ h1 h2 h3
  · intro g pid p h1 h2 h3
    unfold StabilizerCheck.evaluate
    simp only [h1, h2, h3]
  · intro g pid t h1 h2 h3
    unfold StabilizerCheck.evaluate
    simp only [h1, h2, h3]

/-- Witness for `stab_evaluate_dispatch_on_first_error`: the string
branch, taken by the star check on a weight-1 string error. -/
theorem stab_evaluate_dispatch_on_first_error_witness :
    StabilizerCheck.evaluate starCheckXXXX (fun _ => 0)
        (errorOnlyState (singleSite "Z" 0)) 0
      = ErrorCheck.evaluate starCheckXXXX (fun _ => 0)
          (errorOnlyState (singleSite "Z" 0)) 0 :=
  (stab_evaluate_dispatch_on_first_error starCheckXXXX (fun _ => 0)
      (errorOnlyState (singleSite "Z" 0)) 0).2.2.1 [0, 1, 2, 3] 0 "Z"
    rfl rfl rfl

end PyQcode
